import Mathlib

/-
Verification of the InfiniteYou gradio demo layer (app.py).

The file shallowly embeds the two state-manipulating functions of app.py,
`prepare_pipeline` and `generate_image`, together with the convenience
wrapper `generate_examples`.  The external `InfUFluxPipeline` object is
modelled as an abstract record (an identity tag, a model version and the
list of LoRA adapters loaded by this layer); its expensive operations are
recorded as an effect trace.  Nondeterminism of `torch.seed()` and the
possibility that the pipeline call or its construction raises are passed
in as explicit oracle parameters.
-/

namespace InfiniteYou

/-- Abstract handle for a raster image (PIL image in the source). -/
abbrev Image := Nat

/-- Command-line arguments parsed at startup (app.py lines 25-28). -/
structure Args where
  base_model_path : String
  clip_encoder_path : Option String
deriving DecidableEq

/-- Defaults of the argument parser. -/
def defaultArgs : Args := ⟨"black-forest-labs/FLUX.1-dev", none⟩

/-- One entry of the `loras` list handed to `pipeline.load_loras`:
file path, adapter name, blend weight (app.py lines 81-86). -/
structure LoraSpec where
  path : String
  name : String
  weight : Rat
deriving DecidableEq

/-- Abstract state of the `InfUFluxPipeline` object: `pid` models Python
object identity, `model_version` mirrors the attribute read at line 64,
`adapters` is the set of optional LoRA adapters currently loaded. -/
structure PipelineState where
  pid : Nat
  model_version : String
  adapters : List LoraSpec
deriving DecidableEq

/-- The module-level `loaded_pipeline_config` dict (app.py lines 43-47). -/
structure PipelineConfig where
  model_version : String
  enable_realism : Bool
  enable_anti_blur : Bool
deriving DecidableEq

/-- The module-level mutable state: the `pipeline` global (None at start),
the `loaded_pipeline_config` dict, and a counter used to mint fresh object
identities for newly constructed pipelines. -/
structure AppState where
  pipeline : Option PipelineState
  loaded_pipeline_config : PipelineConfig
  nextId : Nat
deriving DecidableEq

/-- Initial value of `loaded_pipeline_config` (app.py lines 43-47). -/
def initialConfig : PipelineConfig := ⟨"aes_stage2", false, false⟩

/-- Module state right after import: `pipeline = None`. -/
def initialState : AppState := ⟨none, initialConfig, 0⟩

/-- Observable expensive operations performed by `prepare_pipeline`. -/
inductive Effect where
  | delPipeline (old : Option Nat)
  | constructPipeline (base_model_path infu_model_path insightface_root_path : String)
      (image_proj_num_tokens : Nat) (infu_flux_version model_version : String)
  | deleteAdapters (names : List String)
  | loadLoras (loras : List LoraSpec)
deriving DecidableEq

/-- The realism LoRA entry appended at app.py line 83. -/
def realismLora : LoraSpec :=
  ⟨"./models/InfiniteYou/supports/optional_loras/flux_realism_lora.safetensors", "realism", 1⟩

/-- The anti-blur LoRA entry appended at app.py line 85. -/
def antiBlurLora : LoraSpec :=
  ⟨"./models/InfiniteYou/supports/optional_loras/flux_anti_blur_lora.safetensors", "anti_blur", 1⟩

/-- The `loras` list built at app.py lines 81-85. -/
def lorasFor (enable_realism enable_anti_blur : Bool) : List LoraSpec :=
  (if enable_realism then [realismLora] else []) ++
    (if enable_anti_blur then [antiBlurLora] else [])

/-- Whether an adapter is one of the two names removed by
`pipeline.pipe.delete_adapters(['realism', 'anti_blur'])`. -/
def isOptionalAdapter (l : LoraSpec) : Bool :=
  l.name == "realism" || l.name == "anti_blur"

/-- Effect of `delete_adapters(['realism', 'anti_blur'])` on the pipeline. -/
def deleteAdaptersFrom (p : PipelineState) : PipelineState :=
  { p with adapters := p.adapters.filter (fun l => !(isOptionalAdapter l)) }

/-- Effect of `load_loras(loras)` on the pipeline. -/
def applyLoras (p : PipelineState) (loras : List LoraSpec) : PipelineState :=
  { p with adapters := p.adapters ++ loras }

/-- The model path f-string at app.py line 67. -/
def infuModelPath (model_version : String) : String :=
  "./models/InfiniteYou/infu_flux_v1.0/" ++ model_version

/-- The `InfUFluxPipeline(...)` construction arguments (app.py lines 71-78). -/
def constructEffect (args : Args) (model_version : String) : Effect :=
  .constructPipeline args.base_model_path (infuModelPath model_version)
    "./models/InfiniteYou/supports/insightface" 8 "v1.0" model_version

/-- A freshly constructed pipeline object for a model version: new object
identity, the requested version, no optional LoRA adapters loaded yet. -/
def freshPipeline (s : AppState) (model_version : String) : PipelineState :=
  ⟨s.nextId, model_version, []⟩

/-- The early-return guard of `prepare_pipeline` (app.py lines 52-57):
`pipeline` is truthy and all three fields of `loaded_pipeline_config`
match the requested values. -/
def noChange (s : AppState) (model_version : String) (enable_realism enable_anti_blur : Bool) : Bool :=
  s.pipeline.isSome
    && (s.loaded_pipeline_config.enable_realism == enable_realism)
    && (s.loaded_pipeline_config.enable_anti_blur == enable_anti_blur)
    && (model_version == s.loaded_pipeline_config.model_version)

/-- Shallow embedding of `prepare_pipeline` (app.py lines 49-86), the
non-failing run: returns the new module state together with the trace of
expensive effects performed.  After the early-return check fails, the
three config fields are overwritten (lines 60-62); the pipeline is
rebuilt when it is None or its version differs (lines 64-78); finally the
two optional adapters are deleted and the requested LoRA list is loaded
(lines 80-86). -/
def preparePipeline (args : Args) (s : AppState) (model_version : String)
    (enable_realism enable_anti_blur : Bool) : AppState × List Effect :=
  if noChange s model_version enable_realism enable_anti_blur then (s, [])
  else
    match s.pipeline with
    | some p =>
      if p.model_version != model_version then
        (⟨some (applyLoras (deleteAdaptersFrom (freshPipeline s model_version))
             (lorasFor enable_realism enable_anti_blur)),
           ⟨model_version, enable_realism, enable_anti_blur⟩, s.nextId + 1⟩,
         [.delPipeline (some p.pid), constructEffect args model_version,
          .deleteAdapters ["realism", "anti_blur"],
          .loadLoras (lorasFor enable_realism enable_anti_blur)])
      else
        (⟨some (applyLoras (deleteAdaptersFrom p) (lorasFor enable_realism enable_anti_blur)),
           ⟨model_version, enable_realism, enable_anti_blur⟩, s.nextId⟩,
         [.deleteAdapters ["realism", "anti_blur"],
          .loadLoras (lorasFor enable_realism enable_anti_blur)])
    | none =>
      (⟨some (applyLoras (deleteAdaptersFrom (freshPipeline s model_version))
           (lorasFor enable_realism enable_anti_blur)),
         ⟨model_version, enable_realism, enable_anti_blur⟩, s.nextId + 1⟩,
       [.delPipeline none, constructEffect args model_version,
        .deleteAdapters ["realism", "anti_blur"],
        .loadLoras (lorasFor enable_realism enable_anti_blur)])

/-- Fallible embedding of `prepare_pipeline`: `constructOk` says whether
the `InfUFluxPipeline(...)` construction succeeds, `loadOk` whether
`load_loras` succeeds.  On a raise the `.error` value carries the module
state at that moment: the config fields were already overwritten (app.py
lines 60-62 precede all fallible work), and on a construction failure the
`pipeline` global was already deleted (line 65). -/
def preparePipelineF (args : Args) (s : AppState) (model_version : String)
    (enable_realism enable_anti_blur : Bool) (constructOk loadOk : Bool) :
    Except AppState (AppState × List Effect) :=
  if noChange s model_version enable_realism enable_anti_blur then .ok (s, [])
  else
    match s.pipeline with
    | some p =>
      if p.model_version != model_version then
        if constructOk then
          if loadOk then
            .ok (⟨some (applyLoras (deleteAdaptersFrom (freshPipeline s model_version))
                     (lorasFor enable_realism enable_anti_blur)),
                   ⟨model_version, enable_realism, enable_anti_blur⟩, s.nextId + 1⟩,
                 [.delPipeline (some p.pid), constructEffect args model_version,
                  .deleteAdapters ["realism", "anti_blur"],
                  .loadLoras (lorasFor enable_realism enable_anti_blur)])
          else
            .error ⟨some (deleteAdaptersFrom (freshPipeline s model_version)),
                     ⟨model_version, enable_realism, enable_anti_blur⟩, s.nextId + 1⟩
        else .error ⟨none, ⟨model_version, enable_realism, enable_anti_blur⟩, s.nextId⟩
      else
        if loadOk then
          .ok (⟨some (applyLoras (deleteAdaptersFrom p) (lorasFor enable_realism enable_anti_blur)),
                 ⟨model_version, enable_realism, enable_anti_blur⟩, s.nextId⟩,
               [.deleteAdapters ["realism", "anti_blur"],
                .loadLoras (lorasFor enable_realism enable_anti_blur)])
        else
          .error ⟨some (deleteAdaptersFrom p),
                   ⟨model_version, enable_realism, enable_anti_blur⟩, s.nextId⟩
    | none =>
      if constructOk then
        if loadOk then
          .ok (⟨some (applyLoras (deleteAdaptersFrom (freshPipeline s model_version))
                   (lorasFor enable_realism enable_anti_blur)),
                 ⟨model_version, enable_realism, enable_anti_blur⟩, s.nextId + 1⟩,
               [.delPipeline none, constructEffect args model_version,
                .deleteAdapters ["realism", "anti_blur"],
                .loadLoras (lorasFor enable_realism enable_anti_blur)])
        else
          .error ⟨some (deleteAdaptersFrom (freshPipeline s model_version)),
                   ⟨model_version, enable_realism, enable_anti_blur⟩, s.nextId + 1⟩
      else .error ⟨none, ⟨model_version, enable_realism, enable_anti_blur⟩, s.nextId⟩

/-- The keyword arguments passed to the `pipeline(...)` call
(app.py lines 113-125). -/
structure PipeCallArgs where
  id_image : Option Image
  prompt : String
  control_image : Option Image
  seed : Int
  width : Nat
  height : Nat
  guidance_scale : Rat
  num_steps : Nat
  infusenet_conditioning_scale : Rat
  infusenet_guidance_start : Rat
  infusenet_guidance_end : Rat
deriving DecidableEq

/-- The gradio display update returned by `generate_image`:
`gr.update()` (no-op) or `gr.update(value=image, label=...)`. -/
inductive Update where
  | noop
  | withImage (value : Image) (label : String)
deriving DecidableEq

/-- Observable outcome of a `generate_image` run that returned normally:
final module state, the arguments passed to the pipeline call, the
returned display update, and counters for the error-reporting actions in
the except-branch: `print(e)` calls, `gr.Error(...)` objects constructed,
and `gr.Error` exceptions actually raised (which is what makes a gradio
error notification visible to the user). -/
structure GenOutcome where
  state : AppState
  call : PipeCallArgs
  update : Update
  printed : Nat
  errorsConstructed : Nat
  errorsRaised : Nat
deriving DecidableEq

/-- Result of `generate_image`: either `prepare_pipeline` raised (that
call sits outside the try-block, so the exception propagates to the
caller), or the function returned an outcome. -/
inductive GenResult where
  | prepRaised (s : AppState)
  | done (o : GenOutcome)
deriving DecidableEq

/-- Shallow embedding of `generate_image` (app.py lines 89-131).
`torchSeed` is the oracle for `torch.seed()`; `pipeOutcome` is the oracle
for the pipeline call, `none` meaning it raises.  A seed of 0 is replaced
by `torch.seed() & 0xFFFFFFFF`, i.e. the draw reduced mod 2^32 (line 110).
On a pipeline exception the code prints, constructs — but does not raise —
a `gr.Error`, and returns the no-op `gr.update()` (lines 126-129). -/
def generateImage (args : Args) (s : AppState)
    (input_image control_image : Option Image) (prompt : String) (seed : Int)
    (width height : Nat) (guidance_scale : Rat) (num_steps : Nat)
    (infusenet_conditioning_scale infusenet_guidance_start infusenet_guidance_end : Rat)
    (enable_realism enable_anti_blur : Bool) (model_version : String)
    (torchSeed : Nat) (pipeOutcome : Option Image) (constructOk loadOk : Bool) : GenResult :=
  match preparePipelineF args s model_version enable_realism enable_anti_blur constructOk loadOk with
  | .error sErr => .prepRaised sErr
  | .ok r =>
    let seed1 : Int := if seed = 0 then ((torchSeed % 4294967296 : Nat) : Int) else seed
    let call : PipeCallArgs :=
      ⟨input_image, prompt, control_image, seed1, width, height, guidance_scale, num_steps,
       infusenet_conditioning_scale, infusenet_guidance_start, infusenet_guidance_end⟩
    match pipeOutcome with
    | none => .done ⟨r.1, call, .noop, 1, 1, 0⟩
    | some image =>
      .done ⟨r.1, call, .withImage image ("Generated image, seed = " ++ toString seed1), 0, 0, 0⟩

/-- Shallow embedding of `generate_examples` (app.py lines 134-135). -/
def generateExamples (args : Args) (s : AppState)
    (id_image control_image : Option Image) (prompt_text : String) (seed : Int)
    (enable_realism enable_anti_blur : Bool) (model_version : String)
    (torchSeed : Nat) (pipeOutcome : Option Image) (constructOk loadOk : Bool) : GenResult :=
  generateImage args s id_image control_image prompt_text seed 864 1152 3.5 30 1.0 0.0 1.0
    enable_realism enable_anti_blur model_version torchSeed pipeOutcome constructOk loadOk

/-- The fallible embedding agrees with the non-failing one when neither
oracle reports a failure. -/
theorem preparePipelineF_ok (args : Args) (s : AppState) (mv : String) (er ab : Bool) :
    preparePipelineF args s mv er ab true true = .ok (preparePipeline args s mv er ab) := by
  unfold preparePipelineF preparePipeline
  split
  · rfl
  · cases s.pipeline with
    | none => rfl
    | some p =>
      dsimp only
      split <;> rfl

/-- After any `prepare_pipeline` call, the pipeline is loaded and the
config matches the request, so the early-return guard holds. -/
theorem noChange_after_prepare (args : Args) (s : AppState) (mv : String) (er ab : Bool) :
    noChange (preparePipeline args s mv er ab).1 mv er ab = true := by
  unfold preparePipeline
  split
  · next h => exact h
  · cases s.pipeline with
    | none => simp [noChange]
    | some p =>
      dsimp only
      split <;> simp [noChange]

/-- When the early-return guard holds, `prepare_pipeline` is a no-op. -/
theorem prepare_noop_of_noChange (args : Args) (s : AppState) (mv : String) (er ab : Bool)
    (h : noChange s mv er ab = true) :
    preparePipeline args s mv er ab = (s, []) := by
  unfold preparePipeline
  rw [if_pos h]

/-- C3: `prepare_pipeline` is idempotent.  A second call with the same
triple (model_version, enable_realism, enable_anti_blur) performs no
effect (no construction, no adapter reload) and leaves both the pipeline
singleton and `loaded_pipeline_config` unchanged, for every starting
state and argument triple. -/
theorem prepare_pipeline_idempotent (args : Args) (s : AppState) (mv : String) (er ab : Bool) :
    preparePipeline args (preparePipeline args s mv er ab).1 mv er ab =
      ((preparePipeline args s mv er ab).1, []) :=
  prepare_noop_of_noChange args _ mv er ab (noChange_after_prepare args s mv er ab)

/-- C7: `generate_examples` returns exactly the result of `generate_image`
on the same fields together with the fixed preset width 864, height 1152,
guidance scale 3.5, 30 steps, conditioning scale 1.0, guidance window
start 0.0 and end 1.0, for all inputs and oracle values. -/
theorem generate_examples_preset (args : Args) (s : AppState)
    (id_image control_image : Option Image) (prompt_text : String) (seed : Int)
    (er ab : Bool) (mv : String) (ts : Nat) (po : Option Image) (cok lok : Bool) :
    generateExamples args s id_image control_image prompt_text seed er ab mv ts po cok lok =
      generateImage args s id_image control_image prompt_text seed 864 1152 3.5 30 1.0 0.0 1.0
        er ab mv ts po cok lok := rfl

/-- C1 (code evidence): on a generation request whose pipeline call
raises, `generate_image` returns normally (the exception does not
propagate) with the no-op `gr.update()`, prints once, constructs exactly
one `gr.Error` object, but raises zero of them — so zero user-visible
gradio error notifications are emitted, not one: the error object is
created and discarded at app.py line 128. -/
theorem generate_error_caught_no_notification :
    generateImage defaultArgs initialState none none "portrait" 42 864 1152 3.5 30 1 0 1
        false false "sim_stage1" 0 none true true =
      .done ⟨⟨some ⟨0, "sim_stage1", []⟩, ⟨"sim_stage1", false, false⟩, 1⟩,
             ⟨none, "portrait", none, 42, 864, 1152, 3.5, 30, 1, 0, 1⟩,
             .noop, 1, 1, 0⟩ := rfl

/-- C2 (counterexample): with input seed 0 and a `torch.seed()` draw that
is a multiple of 2^32 (here 2^32 itself), the resolved seed is the
literal 0 and the returned label is "Generated image, seed = 0" — the
label can contain the literal 0, contrary to the claim's "never". -/
theorem zero_seed_label_can_be_zero :
    generateImage defaultArgs initialState none none "portrait" 0 864 1152 3.5 30 1 0 1
        false false "aes_stage2" 4294967296 (some 7) true true =
      .done ⟨⟨some ⟨0, "aes_stage2", []⟩, ⟨"aes_stage2", false, false⟩, 1⟩,
             ⟨none, "portrait", none, 0, 864, 1152, 3.5, 30, 1, 0, 1⟩,
             .withImage 7 "Generated image, seed = 0", 0, 0, 0⟩ := rfl

/-- C2 (amended): for every request with input seed 0, the seed actually
passed to the pipeline is the `torch.seed()` draw reduced mod 2^32, hence
in the closed range [0, 2^32 - 1], and the returned label reports exactly
that resolved value (which, unlike the claim states, can itself be 0 when
the draw is a multiple of 2^32). -/
theorem zero_seed_resolved_in_range (args : Args) (s : AppState)
    (ii ci : Option Image) (pr : String) (w hgt : Nat) (g : Rat) (n : Nat)
    (c gs ge : Rat) (er ab : Bool) (mv : String) (ts : Nat) (img : Image) :
    ∃ o, generateImage args s ii ci pr 0 w hgt g n c gs ge er ab mv ts (some img) true true =
        .done o
      ∧ o.call.seed = ((ts % 4294967296 : Nat) : Int)
      ∧ 0 ≤ o.call.seed ∧ o.call.seed < 4294967296
      ∧ o.update = .withImage img ("Generated image, seed = " ++ toString o.call.seed) := by
  refine ⟨⟨(preparePipeline args s mv er ab).1,
    ⟨ii, pr, ci, ((ts % 4294967296 : Nat) : Int), w, hgt, g, n, c, gs, ge⟩,
    .withImage img ("Generated image, seed = " ++ toString ((ts % 4294967296 : Nat) : Int)),
    0, 0, 0⟩, ?_, rfl, ?_, ?_, rfl⟩
  · unfold generateImage
    rw [preparePipelineF_ok]
    rfl
  · exact Int.natCast_nonneg _
  · show ((ts % 4294967296 : Nat) : Int) < 4294967296
    exact_mod_cast Nat.mod_lt ts (by norm_num)

/-- C6: for every request with a nonzero input seed S, the seed passed to
the pipeline equals S exactly (no randomization, independently of the
`torch.seed()` draw) and the returned label reports S. -/
theorem nonzero_seed_passed_exactly (args : Args) (s : AppState)
    (ii ci : Option Image) (pr : String) (seed : Int) (w hgt : Nat) (g : Rat) (n : Nat)
    (c gs ge : Rat) (er ab : Bool) (mv : String) (ts : Nat) (img : Image)
    (hseed : seed ≠ 0) :
    ∃ o, generateImage args s ii ci pr seed w hgt g n c gs ge er ab mv ts (some img) true true =
        .done o
      ∧ o.call.seed = seed
      ∧ o.update = .withImage img ("Generated image, seed = " ++ toString seed) := by
  refine ⟨⟨(preparePipeline args s mv er ab).1,
    ⟨ii, pr, ci, seed, w, hgt, g, n, c, gs, ge⟩,
    .withImage img ("Generated image, seed = " ++ toString seed), 0, 0, 0⟩, ?_, rfl, rfl⟩
  unfold generateImage
  rw [preparePipelineF_ok]
  dsimp only
  rw [if_neg hseed]

/-- C6 witness: the theorem applied at the concrete seed 5. -/
theorem nonzero_seed_passed_exactly_witness :
    ∃ o, generateImage defaultArgs initialState none none "portrait" 5 864 1152 3.5 30 1 0 1
        false false "sim_stage1" 0 (some 7) true true = .done o
      ∧ o.call.seed = 5
      ∧ o.update = .withImage 7 ("Generated image, seed = " ++ toString (5 : Int)) :=
  nonzero_seed_passed_exactly defaultArgs initialState none none "portrait" 5 864 1152 3.5 30
    1 0 1 false false "sim_stage1" 0 7 (by decide)

/-- Every adapter surviving `delete_adapters(['realism', 'anti_blur'])`
is not one of the two optional adapters. -/
theorem deleteAdaptersFrom_no_optional (p : PipelineState) :
    ∀ l ∈ (deleteAdaptersFrom p).adapters, isOptionalAdapter l = false := by
  intro l hl
  simp only [deleteAdaptersFrom, List.mem_filter] at hl
  simpa using hl.2

/-- Every entry of the `loras` list built by `prepare_pipeline` carries
blend weight exactly 1. -/
theorem lorasFor_weight (er ab : Bool) : ∀ l ∈ lorasFor er ab, l.weight = 1 := by
  intro l hl
  have h : l = realismLora ∨ l = antiBlurLora := by
    cases er <;> cases ab <;> simp [lorasFor] at hl <;> tauto
  rcases h with rfl | rfl <;> rfl

/-- C4: a call that keeps the model version of the loaded configuration
and the pipeline but changes a LoRA toggle does not reconstruct the base
pipeline: the resulting pipeline keeps its object identity (`pid`), the
only effects are one adapter removal of the two optional names and one
adapter load, every loaded adapter has blend weight exactly 1, and every
non-optional adapter of the old pipeline survives. -/
theorem prepare_lora_toggle_keeps_pipeline (args : Args) (s : AppState) (p : PipelineState)
    (mv : String) (er ab : Bool)
    (hp : s.pipeline = some p)
    (hv : p.model_version = mv)
    (_hc : s.loaded_pipeline_config.model_version = mv)
    (hchange : s.loaded_pipeline_config.enable_realism ≠ er ∨
      s.loaded_pipeline_config.enable_anti_blur ≠ ab) :
    preparePipeline args s mv er ab =
      (⟨some (applyLoras (deleteAdaptersFrom p) (lorasFor er ab)), ⟨mv, er, ab⟩, s.nextId⟩,
       [.deleteAdapters ["realism", "anti_blur"], .loadLoras (lorasFor er ab)]) ∧
    (applyLoras (deleteAdaptersFrom p) (lorasFor er ab)).pid = p.pid ∧
    (∀ l ∈ lorasFor er ab, l.weight = 1) ∧
    (∀ l ∈ p.adapters, isOptionalAdapter l = false →
      l ∈ (applyLoras (deleteAdaptersFrom p) (lorasFor er ab)).adapters) := by
  have hnc : noChange s mv er ab = false := by
    rcases hchange with h | h
    · simp [noChange, beq_eq_false_iff_ne.mpr h]
    · simp [noChange, beq_eq_false_iff_ne.mpr h]
  refine ⟨?_, rfl, lorasFor_weight er ab, ?_⟩
  · unfold preparePipeline
    rw [if_neg (by simp [hnc]), hp]
    simp [hv]
  · intro l hl hopt
    simp only [applyLoras, deleteAdaptersFrom, List.mem_append, List.mem_filter]
    exact Or.inl ⟨hl, by simp [hopt]⟩

/-- C4 witness: the theorem applied at a concrete state that has a loaded
aes_stage2 pipeline with both toggles off and requests realism on. -/
theorem prepare_lora_toggle_keeps_pipeline_witness :
    preparePipeline defaultArgs ⟨some ⟨5, "aes_stage2", []⟩, ⟨"aes_stage2", false, false⟩, 9⟩
        "aes_stage2" true false =
      (⟨some (applyLoras (deleteAdaptersFrom ⟨5, "aes_stage2", []⟩) (lorasFor true false)),
         ⟨"aes_stage2", true, false⟩, 9⟩,
       [.deleteAdapters ["realism", "anti_blur"], .loadLoras (lorasFor true false)]) ∧
    (applyLoras (deleteAdaptersFrom ⟨5, "aes_stage2", []⟩) (lorasFor true false)).pid = 5 ∧
    (∀ l ∈ lorasFor true false, l.weight = 1) ∧
    (∀ l ∈ (⟨5, "aes_stage2", []⟩ : PipelineState).adapters, isOptionalAdapter l = false →
      l ∈ (applyLoras (deleteAdaptersFrom ⟨5, "aes_stage2", []⟩) (lorasFor true false)).adapters) :=
  prepare_lora_toggle_keeps_pipeline defaultArgs
    ⟨some ⟨5, "aes_stage2", []⟩, ⟨"aes_stage2", false, false⟩, 9⟩ ⟨5, "aes_stage2", []⟩
    "aes_stage2" true false rfl rfl rfl (Or.inl (by decide))

/-- C5: a call whose model version differs from the loaded pipeline's
version releases the previous pipeline object, constructs a new one from
the on-disk assets of the requested version, and then re-applies exactly
the requested LoRA toggles (each at weight 1) to the new pipeline. -/
theorem prepare_version_change_rebuilds (args : Args) (s : AppState) (p : PipelineState)
    (mv : String) (er ab : Bool)
    (hp : s.pipeline = some p)
    (hv : p.model_version ≠ mv)
    (hcv : s.loaded_pipeline_config.model_version = p.model_version) :
    preparePipeline args s mv er ab =
      (⟨some (applyLoras (deleteAdaptersFrom (freshPipeline s mv)) (lorasFor er ab)),
         ⟨mv, er, ab⟩, s.nextId + 1⟩,
       [.delPipeline (some p.pid), constructEffect args mv,
        .deleteAdapters ["realism", "anti_blur"], .loadLoras (lorasFor er ab)]) ∧
    (applyLoras (deleteAdaptersFrom (freshPipeline s mv)) (lorasFor er ab)).model_version = mv ∧
    (applyLoras (deleteAdaptersFrom (freshPipeline s mv)) (lorasFor er ab)).adapters =
      lorasFor er ab ∧
    (∀ l ∈ lorasFor er ab, l.weight = 1) := by
  have hmv : mv ≠ s.loaded_pipeline_config.model_version := by
    rw [hcv]
    exact fun hh => hv hh.symm
  have hnc : noChange s mv er ab = false := by
    simp [noChange, beq_eq_false_iff_ne.mpr hmv]
  refine ⟨?_, rfl, rfl, lorasFor_weight er ab⟩
  unfold preparePipeline
  rw [if_neg (by simp [hnc]), hp]
  simp [bne_iff_ne.mpr hv]

/-- C5 witness: the theorem applied at a concrete state with a loaded
aes_stage2 pipeline and a request for sim_stage1 with anti-blur on. -/
theorem prepare_version_change_rebuilds_witness :
    preparePipeline defaultArgs ⟨some ⟨3, "aes_stage2", []⟩, ⟨"aes_stage2", false, false⟩, 4⟩
        "sim_stage1" false true =
      (⟨some (applyLoras
           (deleteAdaptersFrom
             (freshPipeline ⟨some ⟨3, "aes_stage2", []⟩, ⟨"aes_stage2", false, false⟩, 4⟩
               "sim_stage1"))
           (lorasFor false true)),
         ⟨"sim_stage1", false, true⟩, 5⟩,
       [.delPipeline (some 3), constructEffect defaultArgs "sim_stage1",
        .deleteAdapters ["realism", "anti_blur"], .loadLoras (lorasFor false true)]) ∧
    (applyLoras
      (deleteAdaptersFrom
        (freshPipeline ⟨some ⟨3, "aes_stage2", []⟩, ⟨"aes_stage2", false, false⟩, 4⟩
          "sim_stage1"))
      (lorasFor false true)).model_version = "sim_stage1" ∧
    (applyLoras
      (deleteAdaptersFrom
        (freshPipeline ⟨some ⟨3, "aes_stage2", []⟩, ⟨"aes_stage2", false, false⟩, 4⟩
          "sim_stage1"))
      (lorasFor false true)).adapters = lorasFor false true ∧
    (∀ l ∈ lorasFor false true, l.weight = 1) :=
  prepare_version_change_rebuilds defaultArgs
    ⟨some ⟨3, "aes_stage2", []⟩, ⟨"aes_stage2", false, false⟩, 4⟩ ⟨3, "aes_stage2", []⟩
    "sim_stage1" false true rfl (by decide) rfl

/-- C9: `prepare_pipeline` overwrites all three fields of
`loaded_pipeline_config` before any fallible work, so whenever the call
raises (during pipeline construction or LoRA loading), the config already
holds the newly requested triple; moreover at that moment the pipeline is
either gone (construction failed after `del pipeline`) or holds none of
the optional adapters (they were deleted, the new set was never loaded),
so the singleton does not reflect a requested-on toggle. -/
theorem prepare_error_config_overwritten (args : Args) (s : AppState) (mv : String)
    (er ab cok lok : Bool) (sErr : AppState)
    (h : preparePipelineF args s mv er ab cok lok = .error sErr) :
    sErr.loaded_pipeline_config = ⟨mv, er, ab⟩ ∧
      (sErr.pipeline = none ∨
        ∃ p, sErr.pipeline = some p ∧ ∀ l ∈ p.adapters, isOptionalAdapter l = false) := by
  unfold preparePipelineF at h
  split at h
  · exact Except.noConfusion h
  · split at h
    · split at h
      · split at h
        · split at h
          · exact Except.noConfusion h
          · injection h with h
            subst h
            exact ⟨rfl, Or.inr ⟨_, rfl, deleteAdaptersFrom_no_optional _⟩⟩
        · injection h with h
          subst h
          exact ⟨rfl, Or.inl rfl⟩
      · split at h
        · exact Except.noConfusion h
        · injection h with h
          subst h
          exact ⟨rfl, Or.inr ⟨_, rfl, deleteAdaptersFrom_no_optional _⟩⟩
    · split at h
      · split at h
        · exact Except.noConfusion h
        · injection h with h
          subst h
          exact ⟨rfl, Or.inr ⟨_, rfl, deleteAdaptersFrom_no_optional _⟩⟩
      · injection h with h
        subst h
        exact ⟨rfl, Or.inl rfl⟩

/-- C9 witness: starting from the initial state (no pipeline yet), a
request for sim_stage1 with realism on whose construction raises leaves
the config already overwritten while the pipeline is gone. -/
theorem prepare_error_config_overwritten_witness :
    (⟨none, ⟨"sim_stage1", true, false⟩, 0⟩ : AppState).loaded_pipeline_config =
        ⟨"sim_stage1", true, false⟩ ∧
      ((⟨none, ⟨"sim_stage1", true, false⟩, 0⟩ : AppState).pipeline = none ∨
        ∃ p, (⟨none, ⟨"sim_stage1", true, false⟩, 0⟩ : AppState).pipeline = some p ∧
          ∀ l ∈ p.adapters, isOptionalAdapter l = false) :=
  prepare_error_config_overwritten defaultArgs initialState "sim_stage1" true false false true
    ⟨none, ⟨"sim_stage1", true, false⟩, 0⟩ rfl

/-- C10: the parsed `--clip_encoder_path` value influences nothing: two
runs whose arguments agree on `base_model_path` but differ arbitrarily in
`clip_encoder_path` produce identical `prepare_pipeline` results (state
and effect trace, also under failures) and identical `generate_image`
results on every request. -/
theorem clip_encoder_path_unused (a1 a2 : Args)
    (hbase : a1.base_model_path = a2.base_model_path)
    (s : AppState) (ii ci : Option Image) (pr : String) (seed : Int) (w hgt : Nat)
    (g : Rat) (n : Nat) (c gs ge : Rat) (er ab : Bool) (mv : String) (ts : Nat)
    (po : Option Image) (cok lok : Bool) :
    preparePipelineF a1 s mv er ab cok lok = preparePipelineF a2 s mv er ab cok lok ∧
    generateImage a1 s ii ci pr seed w hgt g n c gs ge er ab mv ts po cok lok =
      generateImage a2 s ii ci pr seed w hgt g n c gs ge er ab mv ts po cok lok := by
  obtain ⟨b1, c1⟩ := a1
  obtain ⟨b2, c2⟩ := a2
  dsimp only at hbase
  subst hbase
  exact ⟨rfl, rfl⟩

/-- C10 witness: the theorem applied at two concrete argument records
differing only in `clip_encoder_path`. -/
theorem clip_encoder_path_unused_witness :
    preparePipelineF ⟨"black-forest-labs/FLUX.1-dev", none⟩ initialState "aes_stage2" false false
        true true =
      preparePipelineF ⟨"black-forest-labs/FLUX.1-dev", some "./clip"⟩ initialState "aes_stage2"
        false false true true ∧
    generateImage ⟨"black-forest-labs/FLUX.1-dev", none⟩ initialState none none "portrait" 1
        864 1152 3.5 30 1 0 1 false false "aes_stage2" 0 (some 7) true true =
      generateImage ⟨"black-forest-labs/FLUX.1-dev", some "./clip"⟩ initialState none none
        "portrait" 1 864 1152 3.5 30 1 0 1 false false "aes_stage2" 0 (some 7) true true :=
  clip_encoder_path_unused ⟨"black-forest-labs/FLUX.1-dev", none⟩
    ⟨"black-forest-labs/FLUX.1-dev", some "./clip"⟩ rfl initialState none none "portrait" 1
    864 1152 3.5 30 1 0 1 false false "aes_stage2" 0 (some 7) true true

end InfiniteYou
